import Mathlib

/-
Shallow embedding of the "Pattern Prophet" adaptive pattern-puzzle engine:
the abstract base class `BasePattern` (data model, difficulty adaptation,
interaction classification) and the concrete `VisualSequencePattern`
generator (src/lib/patterns/visual-sequence-pattern.ts).

Modelling conventions:
- JS numbers are modelled as `ℚ` (all arithmetic in the engine is exact on
  the values it produces: halves and tenths).  `Math.floor` is `Int.floor`,
  converted with `Int.toNat` where the source uses the value as an index or
  count; the conversion agrees with the source whenever the floored value is
  nonnegative, which holds for every difficulty ≥ 0 (difficulty is specified
  to lie in [1,10]).
- `Math.random()` draws are made explicit: a function that performs
  `Math.floor(Math.random() * k)` takes an extra argument `pick : ℕ` and uses
  `pick % k` (`k ≥ 1` always holds at the call sites), so one value of `pick`
  exists for each outcome the source can draw.
- Optional / possibly-`undefined` JS fields become `Option`; the JS `||`
  default (which also replaces `0`, since `0` is falsy) is `jsOrQ`.
- Wall-clock fields (`timestamp`, `lastPlayed`) and the unused optional
  config fields (`maxAttempts`, `timeLimit`) are omitted: no operation
  modelled here reads them.
-/

/-- The six shape names used by the visual sequence generator. -/
inductive Shape
| circle
| square
| triangle
| diamond
| star
| hexagon
deriving DecidableEq

/-- Property bag of a visual element (`VisualElement['properties']`).
`shape` is `Option` because masking replaces it with `undefined`;
`color` is `Option` because attempt elements may omit it. -/
structure VisualProperties where
  shape : Option Shape
  color : Option String
  size : Option ℚ
  rotation : Option ℚ
  strokeWidth : ℚ
  fill : Bool
deriving DecidableEq

/-- One visual unit (`PatternElement` / `VisualElement`). -/
structure VisualElement where
  id : String
  type : String
  position : Option (ℚ × ℚ)
  properties : VisualProperties
deriving DecidableEq

/-- One accepted answer (`PatternSolution`). -/
structure PatternSolution where
  elements : List VisualElement
  confidence : ℚ
  reasoning : String
deriving DecidableEq

/-- Accessibility flags carried by a config. -/
structure AccessibilityFeatures where
  highContrast : Bool
  reducedMotion : Bool
  audioDescriptions : Bool
  keyboardNavigation : Bool
deriving DecidableEq

/-- A full puzzle instance (`PatternConfig`). -/
structure PatternConfig where
  patternType : String
  difficulty : ℚ
  elements : List VisualElement
  validSolutions : List PatternSolution
  hints : List String
  accessibilityFeatures : AccessibilityFeatures
deriving DecidableEq

/-- Classification tag of one submission event. -/
inductive InteractionPattern
| systematic
| random
| exploratory
| frustrated
deriving DecidableEq

/-- One submission event (`PatternAttempt`); `timeSpent` is in seconds
per the source's declaration. -/
structure PatternAttempt where
  id : String
  elements : List VisualElement
  isCorrect : Bool
  confidence : ℚ
  timeSpent : ℚ
  hintsUsed : ℕ
  interactionPattern : InteractionPattern
deriving DecidableEq

/-- Per-user, per-pattern-type rolling state (`PatternProgress`). -/
structure PatternProgress where
  userId : String
  patternType : String
  currentDifficulty : ℚ
  totalAttempts : ℕ
  successfulAttempts : ℕ
  averageTimeToSolve : ℚ
  preferredStrategies : List String
  masteryLevel : ℚ
deriving DecidableEq

/-- The four rule families of `SequenceRule`. -/
inductive RuleType
| increment
| alternating
| pattern
| conditional
deriving DecidableEq

/-- The element property a rule varies. -/
inductive RuleProperty
| size
| color
| shape
| rotation
deriving DecidableEq

/-- A sequence-governing rule (`SequenceRule`).  The source's rule pool only
ever builds `pattern` payloads that are arrays of shape names, so the
payload is modelled as a list of shapes. -/
structure SequenceRule where
  type : RuleType
  property : RuleProperty
  pattern : Option (List Shape)
  increment : Option ℚ
  condition : Option String
deriving DecidableEq

/-- Result record of `validateSolution`. -/
structure ValidationResult where
  isValid : Bool
  confidence : ℚ
  feedback : String
  suggestions : List String
deriving DecidableEq

/-- Mutable per-instance state of a generator (`this.config`,
`this.progress`, `this.lastGeneratedPattern`). -/
structure EngineState where
  config : PatternConfig
  progress : PatternProgress
  lastGeneratedPattern : Option PatternConfig
deriving DecidableEq

/-- JS `x || d` on an optional number: `undefined` and `0` both fall back
to the default `d`, because `0` is falsy. -/
def jsOrQ (d : ℚ) : Option ℚ → ℚ
| none => d
| some v => if v = 0 then d else v

/-- JS `%` on numbers, for the nonnegative operands this engine produces:
`a - b * ⌊a / b⌋`. -/
def jsMod (a b : ℚ) : ℚ := a - b * (⌊a / b⌋ : ℚ)

namespace BasePattern

/-- Source `calculateSuccessRate`: fraction of attempts with `isCorrect` or
confidence above 0.7; 0.5 when the history is empty. -/
def calculateSuccessRate (attempts : List PatternAttempt) : ℚ :=
if attempts.isEmpty then 1/2
else ((attempts.filter (fun a => a.isCorrect || decide (7/10 < a.confidence))).length : ℚ)
      / (attempts.length : ℚ)

/-- Frustration contribution of a single attempt: the three additive
signals of `calculateFrustrationLevel`'s forEach body. -/
def frustrationContribution (a : PatternAttempt) : ℚ :=
(if a.timeSpent < 3 ∧ a.confidence < 3/10 then 3/10 else 0)
+ (if 2 < a.hintsUsed then 2/10 else 0)
+ (if a.isCorrect = false ∧ a.confidence < 1/10 then 1/10 else 0)

/-- Source `calculateFrustrationLevel`: averaged per-attempt score, clamped to 1;
0 for an empty history. -/
def calculateFrustrationLevel (attempts : List PatternAttempt) : ℚ :=
if attempts.isEmpty then 0
else min 1 ((attempts.map frustrationContribution).sum / (attempts.length : ℚ))

/-- The branch structure of `adaptDifficulty`, over the two statistics it
computes from the history.  `adaptDifficulty` below is definitionally this
decision applied to `calculateSuccessRate` and `calculateFrustrationLevel`,
exactly as in the source body. -/
def adaptDecision (currentDifficulty successRate avgFrustration : ℚ) : ℚ :=
if 7/10 < avgFrustration then max 1 (currentDifficulty - 2)
else if 8/10 < successRate ∧ avgFrustration < 3/10 then min 10 (currentDifficulty + 1/2)
else if successRate < 4/10 then max 1 (currentDifficulty - 1/2)
else currentDifficulty

/-- Source `adaptDifficulty(recentAttempts)` on an instance holding `progress`. -/
def adaptDifficulty (progress : PatternProgress) (recentAttempts : List PatternAttempt) : ℚ :=
adaptDecision progress.currentDifficulty
  (calculateSuccessRate recentAttempts) (calculateFrustrationLevel recentAttempts)

/-- The decision chain of `adaptDifficulty` with its emergency branch
removed, used to state that the emergency branch is unreachable: the
gradual-adjustment cases only. -/
def adaptDecisionNoEmergency (currentDifficulty successRate avgFrustration : ℚ) : ℚ :=
if 8/10 < successRate ∧ avgFrustration < 3/10 then min 10 (currentDifficulty + 1/2)
else if successRate < 4/10 then max 1 (currentDifficulty - 1/2)
else currentDifficulty

/-- Source `hasConsistentStrategy`: stubbed to `false` in the base class. -/
def hasConsistentStrategy (_ : List PatternAttempt) : Bool := false

/-- Source `hasHighVarianceInApproach`: stubbed to `false` in the base class. -/
def hasHighVarianceInApproach (_ : List PatternAttempt) : Bool := false

/-- Base-class `detectInteractionPattern`: fewer than 3 attempts means
exploratory; otherwise the last 5 are screened for rapid firing with many
errors, then the two (stubbed) strategy checks. -/
def detectInteractionPattern (attempts : List PatternAttempt) : InteractionPattern :=
if attempts.length < 3 then .exploratory
else
  let recentAttempts := attempts.drop (attempts.length - 5)
  let avgTimePerAttempt := (recentAttempts.map (fun a => a.timeSpent)).sum / (recentAttempts.length : ℚ)
  let rapidFiring := decide (avgTimePerAttempt < 2)
  let manyIncorrect := decide (3 < (recentAttempts.filter (fun a => a.isCorrect = false)).length)
  if rapidFiring && manyIncorrect then .frustrated
  else if hasConsistentStrategy recentAttempts then .systematic
  else if hasHighVarianceInApproach recentAttempts then .random
  else .exploratory

end BasePattern

namespace VisualSequencePattern

/-- Field `this.shapes`, in source order. -/
def shapes : List Shape := [.circle, .square, .triangle, .diamond, .star, .hexagon]

/-- Field `this.colors`, in source order. -/
def colors : List String :=
["#FF6B6B", "#4ECDC4", "#45B7D1", "#96CEB4", "#FFEAA7", "#DDA0DD",
 "#98D8C8", "#F7DC6F", "#BB8FCE", "#85C1E9", "#F8C471", "#82E0AA"]

/-- Expression `Math.min(3 + Math.floor(difficulty / 2), 8)`: the sequence length
chosen by `generate()`. -/
def sequenceLength (difficulty : ℚ) : ℕ :=
min (3 + (⌊difficulty / 2⌋).toNat) 8

/-- Source `calculateMissingPositions`: a contiguous run of
`max(1, min(floor(difficulty/2), length-2))` positions starting at
`floor(length/3)`. -/
def calculateMissingPositions (sequenceLength : ℕ) (difficulty : ℚ) : List ℕ :=
let missingCount := max 1 (min (⌊difficulty / 2⌋).toNat (sequenceLength - 2))
let startPos := sequenceLength / 3
(List.range missingCount).map (fun i => startPos + i)

/-- The four always-eligible rules of `generateSequenceRule`. -/
def baseRules : List SequenceRule :=
[⟨.increment, .size, none, some 1, none⟩,
 ⟨.alternating, .color, none, none, none⟩,
 ⟨.pattern, .shape, some [.circle, .square], none, none⟩,
 ⟨.increment, .rotation, none, some 45, none⟩]

/-- The two rules pushed when `difficulty > 5`. -/
def advancedRules : List SequenceRule :=
[⟨.pattern, .shape, some [.circle, .square, .triangle], none, none⟩,
 ⟨.conditional, .color, none, none, some "if_shape_circle_then_blue"⟩]

/-- Source `generateSequenceRule`: uniform draw among the first
`min(rules.length, 1 + floor(difficulty/2))` pool entries.  The draw
`Math.floor(Math.random() * k)` is modelled by `pick % k` (the pool bound
`k` is at least 1, and the chosen index is below the list length, so the
`getD` default is never reached at source-reachable inputs). -/
def generateSequenceRule (difficulty : ℚ) (pick : ℕ) : SequenceRule :=
let rules := baseRules ++ (if 5 < difficulty then advancedRules else [])
let poolSize := min rules.length (1 + (⌊difficulty / 2⌋).toNat)
rules.getD (pick % poolSize) ⟨.increment, .size, none, some 1, none⟩

/-- Source `generateElementProperties`: the per-index property bag, produced by
applying the rule to the fixed base properties.  The source's
`rule.pattern && rule.property === 'color'` branch can never fire because
every pattern payload the source builds is shape-valued; it is therefore a
fall-through to the base color here. -/
def generateElementProperties (index : ℕ) (rule : SequenceRule) : VisualProperties :=
let base : VisualProperties :=
  { shape := some .circle, color := some (colors.getD 0 ""), size := some 5,
    rotation := some 0, strokeWidth := 2, fill := true }
match rule.type with
| .increment =>
    if rule.property = .size then
      { base with size := some (max 1 (min 10 (3 + (index : ℚ) * jsOrQ 1 rule.increment))) }
    else if rule.property = .rotation then
      { base with rotation := some (jsMod ((index : ℚ) * jsOrQ 45 rule.increment) 360) }
    else base
| .alternating =>
    if rule.property = .color then
      { base with color := some (colors.getD (index % 2) "") }
    else if rule.property = .shape then
      { base with shape := some (shapes.getD (index % 2) .circle) }
    else base
| .pattern =>
    (match rule.pattern with
     | some pat =>
        if rule.property = .shape then
          { base with shape := pat.get? (index % pat.length) }
        else base
     | none => base)
| .conditional => base

/-- Source `generateSequence`: one element per index, closed-form from the rule. -/
def generateSequence (length : ℕ) (rule : SequenceRule) : List VisualElement :=
(List.range length).map (fun (i : ℕ) =>
  { id := "visual-" ++ toString i,
    type := "shape",
    position := some ((i : ℚ) * 100 + 50, 200),
    properties := generateElementProperties i rule })

/-- Printed name of a rule family, as interpolated in source strings. -/
def ruleTypeStr : RuleType → String
| .increment => "increment"
| .alternating => "alternating"
| .pattern => "pattern"
| .conditional => "conditional"

/-- Printed name of a rule property, as interpolated in source strings. -/
def rulePropStr : RuleProperty → String
| .size => "size"
| .color => "color"
| .shape => "shape"
| .rotation => "rotation"

/-- Placeholder element; `elements[pos]` is always in range at source call
sites, so this `getD` default is never reached there. -/
def defaultVisualElement : VisualElement :=
{ id := "", type := "", position := none,
  properties := { shape := none, color := none, size := none, rotation := none,
                  strokeWidth := 0, fill := false } }

/-- Source `generateValidSolutions`: the canonical confidence-1.0 solution, plus
one structurally identical confidence-0.8 alternate when the rule is
pattern-typed with a payload (the source builds the alternate by copying
each element). -/
def generateValidSolutions (elements : List VisualElement) (missingPositions : List ℕ)
    (rule : SequenceRule) : List PatternSolution :=
let primarySolution := missingPositions.map (fun pos => elements.getD pos defaultVisualElement)
let primary : PatternSolution :=
  { elements := primarySolution, confidence := 1,
    reasoning := "Follows the " ++ ruleTypeStr rule.type ++ " pattern for " ++ rulePropStr rule.property }
if rule.type = .pattern ∧ rule.pattern.isSome then
  [primary,
   { elements := missingPositions.map (fun pos => elements.getD pos defaultVisualElement),
     confidence := 8/10,
     reasoning := "Alternative valid pattern interpretation" }]
else [primary]

/-- Source `maskElements`: clear the shape and force the placeholder color at
every missing position; other properties stay visible. -/
def maskElements (elements : List VisualElement) (missingPositions : List ℕ) : List VisualElement :=
elements.mapIdx (fun index element =>
  if index ∈ missingPositions then
    { element with properties :=
        { element.properties with shape := none, color := some "#E0E0E0" } }
  else element)

/-- Source `generateHints`: fixed opening hint, a rule-specific hint for the three
implemented rule families (nothing for `conditional`), then the two fixed
closing hints.  The source also receives the element list but never reads it. -/
def generateHints (rule : SequenceRule) : List String :=
["Look at how the shapes change from one to the next"]
++ (match rule.type with
    | .increment => ["Notice how the " ++ rulePropStr rule.property ++ " is changing step by step"]
    | .alternating => ["The " ++ rulePropStr rule.property ++ " follows an alternating pattern"]
    | .pattern => ["There\x27s a repeating pattern in the " ++ rulePropStr rule.property]
    | .conditional => [])
++ ["Try to continue the pattern you see", "There might be more than one correct answer"]

/-- Source `calculateActualDifficulty`: requested difficulty plus a rule-family
bonus plus `floor(length/2) + missingCount`, clamped to [1,10]. -/
def calculateActualDifficulty (configDifficulty : ℚ) (sequenceLength : ℕ)
    (rule : SequenceRule) (missingCount : ℕ) : ℚ :=
let bonus : ℚ :=
  match rule.type with
  | .increment => 1
  | .alternating => 2
  | .pattern => 3
  | .conditional => 5
max 1 (min 10 (configDifficulty + bonus + ((sequenceLength / 2 : ℕ) : ℚ) + (missingCount : ℚ)))

/-- Source `generate()`: build a fresh config from the instance's configured
difficulty and one random rule draw.  The source method reads
`this.config.difficulty` and returns the new config; it performs no
assignment to `this.lastGeneratedPattern` (see `generateStep`). -/
def generate (difficulty : ℚ) (pick : ℕ) : PatternConfig :=
let len := sequenceLength difficulty
let missingPositions := calculateMissingPositions len difficulty
let rule := generateSequenceRule difficulty pick
let elements := generateSequence len rule
let validSolutions := generateValidSolutions elements missingPositions rule
let actualDifficulty := calculateActualDifficulty difficulty len rule missingPositions.length
{ patternType := "visual-sequence",
  difficulty := actualDifficulty,
  elements := maskElements elements missingPositions,
  validSolutions := validSolutions,
  hints := generateHints rule,
  accessibilityFeatures :=
    { highContrast := true, reducedMotion := true,
      audioDescriptions := true, keyboardNavigation := true } }

/-- The effect of calling `generate()` on an instance: the returned config
together with the instance state afterwards.  The source body contains no
write to any instance field, so the state is returned unchanged. -/
def generateStep (s : EngineState) (pick : ℕ) : PatternConfig × EngineState :=
(generate s.config.difficulty pick, s)

/-- Source `elementsMatch`: exact shape and color equality, size within 1 (with
the JS `|| 5` default that also replaces a zero size). -/
def elementsMatch (a b : VisualElement) : Bool :=
decide (a.properties.shape = b.properties.shape)
&& decide (a.properties.color = b.properties.color)
&& decide (|jsOrQ 5 a.properties.size - jsOrQ 5 b.properties.size| ≤ 1)

/-- Source `calculateSolutionConfidence`: 0 on length mismatch, else the fraction
of position-wise matches (the source's index loop is the count over the
zipped lists). -/
def calculateSolutionConfidence (attempt solution : List VisualElement) : ℚ :=
if attempt.length ≠ solution.length then 0
else ((List.zip attempt solution).countP (fun p => elementsMatch p.1 p.2) : ℚ)
      / (solution.length : ℚ)

/-- Source `generateFeedback`: the 4-tier message ladder on the best confidence
(the source also receives the matched solution but never reads it). -/
def generateFeedback (confidence : ℚ) : String :=
if 9/10 ≤ confidence then "Excellent! You\x27ve identified the pattern perfectly."
else if 7/10 ≤ confidence then "Great work! You\x27re very close to the complete pattern."
else if 5/10 ≤ confidence then "Good start! You\x27ve got part of the pattern right."
else "Keep exploring! Look at how the elements change from one to the next."

/-- Source `generateSuggestions`: always the same three strategy strings. -/
def generateSuggestions : List String :=
["Try focusing on one property at a time (shape, color, size)",
 "Look for what stays the same and what changes",
 "Check if there\x27s a repeating cycle"]

/-- Accumulator of the best-match loop in `validateSolution`. -/
structure BestMatch where
  confidence : ℚ
  elements : List VisualElement
deriving DecidableEq

/-- One step of the best-match loop in `validateSolution`: the candidate
replaces the accumulator only on a strict confidence improvement. -/
def bestMatchStep (attempt : List VisualElement) (acc : BestMatch) (sol : PatternSolution) : BestMatch :=
let c := calculateSolutionConfidence attempt sol.elements
if acc.confidence < c then { confidence := c, elements := sol.elements } else acc

/-- The scoring stage of `validateSolution`, applied to the solution set it
resolved: best per-solution confidence (strict improvement, starting from
0), then the degenerate-match override to 0.9 when every solution scored 0
and the attempt is non-empty, then the 0.8 validity threshold. -/
def scoreAttempt (solutions : List PatternSolution) (attempt : List VisualElement) : ValidationResult :=
let best := solutions.foldl (bestMatchStep attempt)
  ({ confidence := 0, elements := [] } : BestMatch)
let conf := if best.confidence = 0 ∧ 0 < attempt.length then 9/10 else best.confidence
{ isValid := decide (8/10 ≤ conf),
  confidence := conf,
  feedback := generateFeedback conf,
  suggestions := generateSuggestions }

/-- The effect of calling `validateSolution(attempt)` on an instance:
resolve the solution set from `lastGeneratedPattern`, else from
`this.config`; when it is empty, generate a fresh config (one random draw
`pick`), store it in `lastGeneratedPattern` and recurse.  A freshly
generated config always carries at least one solution
(`generate_validSolutions_ne_nil`), so the recursion takes the scoring
path immediately; it is unfolded one step here. -/
def validateSolutionStep (s : EngineState) (attempt : List VisualElement) (pick : ℕ) :
    ValidationResult × EngineState :=
let solutions :=
  match s.lastGeneratedPattern with
  | some p => p.validSolutions
  | none => s.config.validSolutions
if solutions.isEmpty then
  let g := generate s.config.difficulty pick
  (scoreAttempt g.validSolutions attempt, { s with lastGeneratedPattern := some g })
else
  (scoreAttempt solutions attempt, s)

/-- Concrete override of `detectInteractionPattern` in
`VisualSequencePattern` (this, not the base version, runs on a
visual-sequence instance): screens the last 3 attempts, comparing
`timeSpent` against the literals 2000 and 1000. -/
def detectInteractionPattern (attemptHistory : List PatternAttempt) : InteractionPattern :=
if attemptHistory.length = 0 then .exploratory
else
  let recentAttempts := attemptHistory.drop (attemptHistory.length - 3)
  if recentAttempts.any (fun a => decide (a.interactionPattern = .frustrated)) then .frustrated
  else if recentAttempts.all (fun a => decide (2000 < a.timeSpent) && decide (a.hintsUsed ≤ 1)) then
    .systematic
  else if recentAttempts.any (fun a =>
      decide (a.interactionPattern = .random) || decide (a.timeSpent < 1000)) then .random
  else .exploratory

end VisualSequencePattern

/-! Concrete fixtures used by the theorems below. -/

/-- A seed config as supplied before any `generate()` call: difficulty 4,
no elements, no solutions (the factory's default config is exactly such an
empty-elements/empty-solutions skeleton). -/
def exConfig4 : PatternConfig :=
{ patternType := "visual-sequence", difficulty := 4, elements := [], validSolutions := [],
  hints := [], accessibilityFeatures := ⟨true, true, true, true⟩ }

/-- A fresh progress record at difficulty 4. -/
def exProgress4 : PatternProgress :=
{ userId := "u", patternType := "visual-sequence", currentDifficulty := 4, totalAttempts := 0,
  successfulAttempts := 0, averageTimeToSolve := 0, preferredStrategies := [], masteryLevel := 0 }

/-- A freshly constructed engine instance: nothing generated yet. -/
def exStateFresh : EngineState := ⟨exConfig4, exProgress4, none⟩

/-- The elements of the canonical (confidence-1.0) solution of the config
returned by `generate()` on `exStateFresh` when the rule draw picks pool
entry 0 (increment on size). -/
def exCanonicalAttempt : List VisualElement :=
((VisualSequencePattern.generateStep exStateFresh 0).1.validSolutions.headD ⟨[], 0, ""⟩).elements

/-- An attempt record with the given correctness, solve time, hint count
and tag; the other fields are fixed. -/
def mkAttempt (ok : Bool) (t : ℚ) (hintCount : ℕ) (tag : InteractionPattern) : PatternAttempt :=
{ id := "a", elements := [], isCorrect := ok, confidence := 0, timeSpent := t,
  hintsUsed := hintCount, interactionPattern := tag }

/-- Five attempts, each 1.5 seconds, the first four incorrect, none tagged
frustrated or random. -/
def exHistory5 : List PatternAttempt :=
[mkAttempt false (3/2) 0 .exploratory, mkAttempt false (3/2) 0 .exploratory,
 mkAttempt false (3/2) 0 .exploratory, mkAttempt false (3/2) 0 .exploratory,
 mkAttempt true (3/2) 0 .exploratory]

/-- A single slow, hint-free attempt. -/
def exHistorySlow : List PatternAttempt := [mkAttempt false 3000 0 .exploratory]

/-- A progress record whose difficulty is already outside [1,10]. -/
def exProgress11 : PatternProgress := { exProgress4 with currentDifficulty := 11 }

/-- A generated-and-cached config whose single solution has two elements,
for exercising the length-mismatch path of `validateSolution`. -/
def exTwoElementSolutionConfig : PatternConfig :=
{ exConfig4 with validSolutions :=
    [⟨[VisualSequencePattern.defaultVisualElement, VisualSequencePattern.defaultVisualElement],
      1, "two elements"⟩] }

/-- An engine state that has `exTwoElementSolutionConfig` cached as its
last generated pattern. -/
def exStateCached : EngineState := ⟨exConfig4, exProgress4, some exTwoElementSolutionConfig⟩

/-! Supporting lemma: a generated config always carries at least one
solution, which justifies the one-step unfolding of the recursion in
`validateSolutionStep`. -/

/-- Lemma: `generateValidSolutions` always returns the canonical solution first,
so its result is never empty. -/
theorem generateValidSolutions_ne_nil (elements : List VisualElement)
    (missingPositions : List ℕ) (rule : SequenceRule) :
    VisualSequencePattern.generateValidSolutions elements missingPositions rule ≠ [] := by
  by_cases h : rule.type = RuleType.pattern ∧ rule.pattern.isSome = true <;>
    simp [VisualSequencePattern.generateValidSolutions, h]

/-- Lemma: `generate()` always returns at least one valid solution (the canonical
one), so the self-healing fallback of `validateSolution` recurses exactly
once. -/
theorem generate_validSolutions_ne_nil (d : ℚ) (pick : ℕ) :
    (VisualSequencePattern.generate d pick).validSolutions ≠ [] :=
  generateValidSolutions_ne_nil _ _ _

/-! Claim theorems. -/

/-- C2: the spec (and the source's own comment "Use the most recently
generated pattern's valid solutions") requires `generate()` to leave the
just-returned config in the instance's `lastGeneratedPattern` cache, but
the source method never assigns that field: after `generate()` on a fresh
instance the cache is still empty, not the returned config. -/
theorem c2_generate_does_not_cache_bug :
    (VisualSequencePattern.generateStep exStateFresh 0).2.lastGeneratedPattern = none
    ∧ (VisualSequencePattern.generateStep exStateFresh 0).2.lastGeneratedPattern
        ≠ some (VisualSequencePattern.generateStep exStateFresh 0).1 := by
  constructor
  · rfl
  · intro h
    simp only [VisualSequencePattern.generateStep, exStateFresh] at h
    cases h

/-- C1: submitting the canonical solution of the config just produced by
`generate()` (difficulty 4, rule draw 0: increment on size) back into
`validateSolution` on the same instance does not round-trip: because
`generate()` never cached its config, `validateSolution` regenerates a
fresh random config (draw 1: alternating on color) and scores the attempt
against it, yielding confidence 1/2 < 0.8 and `isValid = false`. -/
theorem c1_roundtrip_fails_bug :
    ((VisualSequencePattern.generateStep exStateFresh 0).1.validSolutions.headD ⟨[], 0, ""⟩).confidence = 1
    ∧ (VisualSequencePattern.validateSolutionStep exStateFresh exCanonicalAttempt 1).1.confidence = 1/2
    ∧ (VisualSequencePattern.validateSolutionStep exStateFresh exCanonicalAttempt 1).1.isValid = false := by
  refine ⟨by with_unfolding_all decide, by with_unfolding_all decide, by with_unfolding_all decide⟩

/-- C3 counterexample: at difficulty 1 the generated sequence has length 3
and the masked run is `[1]`, i.e. the single masked position is among the
final two positions of the sequence, contradicting the claim that the
masked set never touches the final two positions. -/
theorem c3_counterexample :
    VisualSequencePattern.sequenceLength 1 = 3
    ∧ VisualSequencePattern.calculateMissingPositions (VisualSequencePattern.sequenceLength 1) 1 = [1]
    ∧ VisualSequencePattern.sequenceLength 1 - 2 ≤ 1 := by
  refine ⟨by with_unfolding_all decide, by with_unfolding_all decide, by with_unfolding_all decide⟩

/-- C6 counterexample: at difficulty 10 the rule draw can select the
conditional rule (pool index 5), and the returned config then carries only
three hint strings, not four. -/
theorem c6_counterexample :
    (VisualSequencePattern.generate 10 5).hints.length = 3 := by
  with_unfolding_all decide

/-- C7: on a visual-sequence instance the subclass override of
`detectInteractionPattern` runs, and on five 1.5-second attempts with four
incorrect it returns `random` (its thresholds 2000 and 1000 treat
`timeSpent` as milliseconds, contradicting the declared seconds unit),
while the base-class algorithm the spec describes returns `frustrated` on
the same history. -/
theorem c7_frustrated_detection_bug :
    VisualSequencePattern.detectInteractionPattern exHistory5 = InteractionPattern.random
    ∧ BasePattern.detectInteractionPattern exHistory5 = InteractionPattern.frustrated := by
  refine ⟨by with_unfolding_all decide, by with_unfolding_all decide⟩

/-- C8 counterexample: a single attempt slower than the override's literal
2000 with at most one hint makes the visual-sequence
`detectInteractionPattern` return `systematic`, refuting the claim that
this output is unreachable for the visual-sequence type. -/
theorem c8_counterexample :
    VisualSequencePattern.detectInteractionPattern exHistorySlow = InteractionPattern.systematic := by
  with_unfolding_all decide

/-- C9 counterexample: with an empty history (success rate defaults to
0.5, frustration 0) every branch of `adaptDifficulty` falls through to the
unchanged current difficulty, so a progress record holding difficulty 11
yields 11, outside [1,10]. -/
theorem c9_counterexample :
    ¬(1 ≤ BasePattern.adaptDifficulty exProgress11 [] ∧ BasePattern.adaptDifficulty exProgress11 [] ≤ 10) := by
  with_unfolding_all decide

/-- Each attempt contributes at most 0.3 + 0.2 + 0.1 = 0.6 to the
frustration sum. -/
theorem frustrationContribution_le (a : PatternAttempt) :
    BasePattern.frustrationContribution a ≤ 3/5 := by
  unfold BasePattern.frustrationContribution
  split_ifs <;> norm_num

/-- The averaged frustration level never exceeds 0.6. -/
theorem calculateFrustrationLevel_le (attempts : List PatternAttempt) :
    BasePattern.calculateFrustrationLevel attempts ≤ 3/5 := by
  unfold BasePattern.calculateFrustrationLevel
  split_ifs with h
  · norm_num
  · have hne : attempts ≠ [] := by
      intro hnil
      simp [hnil] at h
    have hlen : 0 < ((attempts.length : ℚ)) := by
      have := List.length_pos.mpr hne
      exact_mod_cast this
    have hsum : (attempts.map BasePattern.frustrationContribution).sum
        ≤ (3/5) * (attempts.length : ℚ) := by
      have hb := List.sum_le_card_nsmul (attempts.map BasePattern.frustrationContribution) (3/5 : ℚ)
        (by
          intro x hx
          rcases List.mem_map.mp hx with ⟨a, _, rfl⟩
          exact frustrationContribution_le a)
      rw [List.length_map] at hb
      calc (attempts.map BasePattern.frustrationContribution).sum
          ≤ attempts.length • (3/5 : ℚ) := hb
        _ = (3/5) * (attempts.length : ℚ) := by rw [nsmul_eq_mul]; ring
    refine le_trans (min_le_right _ _) ?_
    rw [div_le_iff₀ hlen]
    linarith

/-- C5: for every attempt history the averaged frustration score is at
most 0.6 (each attempt contributes at most 0.3 + 0.2 + 0.1), so
`adaptDifficulty` can never enter its emergency branch: on every input it
coincides with the decision chain from which the emergency branch is
removed. -/
theorem c5_emergency_unreachable (p : PatternProgress) (attempts : List PatternAttempt) :
    BasePattern.calculateFrustrationLevel attempts ≤ 3/5
    ∧ BasePattern.adaptDifficulty p attempts
        = BasePattern.adaptDecisionNoEmergency p.currentDifficulty
            (BasePattern.calculateSuccessRate attempts)
            (BasePattern.calculateFrustrationLevel attempts) := by
  have hb := calculateFrustrationLevel_le attempts
  refine ⟨hb, ?_⟩
  unfold BasePattern.adaptDifficulty BasePattern.adaptDecision BasePattern.adaptDecisionNoEmergency
  rw [if_neg (by linarith)]

/-- C4: in the decision structure of `adaptDifficulty`, the emergency
frustration branch is evaluated first: whenever the averaged frustration
exceeds 0.7, the result is `max 1 (currentDifficulty - 2)` even when the
success rate exceeds 0.8. -/
theorem c4_emergency_priority (cd successRate avgFrustration : ℚ)
    (hf : 7/10 < avgFrustration) (_hs : 8/10 < successRate) :
    BasePattern.adaptDecision cd successRate avgFrustration = max 1 (cd - 2) := by
  unfold BasePattern.adaptDecision
  rw [if_pos hf]

/-- Witness for C4 at concrete inputs: frustration 0.8, success rate 0.9,
difficulty 5. -/
theorem c4_witness :
    (7:ℚ)/10 < 8/10 ∧ (8:ℚ)/10 < 9/10
    ∧ BasePattern.adaptDecision 5 (9/10) (8/10) = max 1 (5 - 2) :=
  ⟨by norm_num, by norm_num,
   c4_emergency_priority 5 (9/10) (8/10) (by norm_num) (by norm_num)⟩

/-- C9 (amended): whenever the progress record's current difficulty lies
in [1,10], the value returned by `adaptDifficulty` lies in [1,10] for
every attempt history.  (Without the range premise the claim fails:
`c9_counterexample`.) -/
theorem c9_amended_clamped (p : PatternProgress) (attempts : List PatternAttempt)
    (h1 : 1 ≤ p.currentDifficulty) (h2 : p.currentDifficulty ≤ 10) :
    1 ≤ BasePattern.adaptDifficulty p attempts ∧ BasePattern.adaptDifficulty p attempts ≤ 10 := by
  unfold BasePattern.adaptDifficulty BasePattern.adaptDecision
  split_ifs with hf hs hr
  · exact ⟨le_max_left _ _, max_le (by norm_num) (by linarith)⟩
  · exact ⟨le_min (by norm_num) (by linarith), min_le_left _ _⟩
  · exact ⟨le_max_left _ _, max_le (by norm_num) (by linarith)⟩
  · exact ⟨h1, h2⟩

/-- Witness for C9 (amended) at a concrete in-range progress record and the
empty history. -/
theorem c9_witness :
    (1:ℚ) ≤ exProgress4.currentDifficulty ∧ exProgress4.currentDifficulty ≤ 10
    ∧ (1 ≤ BasePattern.adaptDifficulty exProgress4 []
        ∧ BasePattern.adaptDifficulty exProgress4 [] ≤ 10) :=
  ⟨by with_unfolding_all decide, by with_unfolding_all decide,
   c9_amended_clamped exProgress4 [] (by with_unfolding_all decide) (by with_unfolding_all decide)⟩

/-- C3 (amended): for every difficulty in [1,10], the masked-position set
of a generated config is non-empty, a strict subset of the sequence
indices, a contiguous run starting at `floor(length/3)`, and contains
neither the first position nor the last position of the sequence.  (The
original claim additionally excluded the second-to-last position, which
fails: `c3_counterexample`.) -/
theorem c3_amended_interior (d : ℚ) (hd1 : 1 ≤ d) (hd2 : d ≤ 10) :
    VisualSequencePattern.calculateMissingPositions (VisualSequencePattern.sequenceLength d) d ≠ []
    ∧ (VisualSequencePattern.calculateMissingPositions (VisualSequencePattern.sequenceLength d) d).length
        < VisualSequencePattern.sequenceLength d
    ∧ (∀ i, i < (VisualSequencePattern.calculateMissingPositions (VisualSequencePattern.sequenceLength d) d).length →
        (VisualSequencePattern.calculateMissingPositions (VisualSequencePattern.sequenceLength d) d).getD i 0
          = VisualSequencePattern.sequenceLength d / 3 + i)
    ∧ (∀ p_elem ∈ VisualSequencePattern.calculateMissingPositions (VisualSequencePattern.sequenceLength d) d,
        0 < p_elem ∧ p_elem + 1 < VisualSequencePattern.sequenceLength d) := by
  have h0 : (0:ℤ) ≤ ⌊d / 2⌋ := Int.floor_nonneg.mpr (by linarith)
  have h5 : ⌊d / 2⌋ ≤ 5 := by
    have hfive : ⌊d / 2⌋ ≤ ⌊(5:ℚ)⌋ := Int.floor_le_floor (by linarith)
    simpa using hfive
  unfold VisualSequencePattern.calculateMissingPositions VisualSequencePattern.sequenceLength
  set k := (⌊d / 2⌋).toNat with hk
  have hk5 : k ≤ 5 := by
    rw [hk]
    exact Int.toNat_le.mpr h5
  clear_value k
  interval_cases k <;> with_unfolding_all decide

/-- Witness for C3 (amended) at difficulty 4 (length 5, masked run [1,2]). -/
theorem c3_witness :
    VisualSequencePattern.calculateMissingPositions (VisualSequencePattern.sequenceLength 4) 4 ≠ []
    ∧ (VisualSequencePattern.calculateMissingPositions (VisualSequencePattern.sequenceLength 4) 4).length
        < VisualSequencePattern.sequenceLength 4
    ∧ (∀ i, i < (VisualSequencePattern.calculateMissingPositions (VisualSequencePattern.sequenceLength 4) 4).length →
        (VisualSequencePattern.calculateMissingPositions (VisualSequencePattern.sequenceLength 4) 4).getD i 0
          = VisualSequencePattern.sequenceLength 4 / 3 + i)
    ∧ (∀ p_elem ∈ VisualSequencePattern.calculateMissingPositions (VisualSequencePattern.sequenceLength 4) 4,
        0 < p_elem ∧ p_elem + 1 < VisualSequencePattern.sequenceLength 4) :=
  c3_amended_interior 4 (by norm_num) (by norm_num)

/-- C6 (amended): every config returned by `generate()` carries the fixed
opening hint, then one rule-specific hint naming the varying property —
except when the selected rule is conditional, which contributes no
rule-specific hint — then the continuation hint and the
solution-plurality hint; so the hint count is 4 for the increment,
alternating and pattern families and 3 for conditional
(`c6_counterexample` shows the conditional case is reachable at
difficulty 10). -/
theorem c6_amended_hints (d : ℚ) (pick : ℕ) :
    (VisualSequencePattern.generate d pick).hints =
      ["Look at how the shapes change from one to the next"]
      ++ (match (VisualSequencePattern.generateSequenceRule d pick).type with
          | RuleType.increment =>
              ["Notice how the "
                ++ VisualSequencePattern.rulePropStr (VisualSequencePattern.generateSequenceRule d pick).property
                ++ " is changing step by step"]
          | RuleType.alternating =>
              ["The "
                ++ VisualSequencePattern.rulePropStr (VisualSequencePattern.generateSequenceRule d pick).property
                ++ " follows an alternating pattern"]
          | RuleType.pattern =>
              ["There\x27s a repeating pattern in the "
                ++ VisualSequencePattern.rulePropStr (VisualSequencePattern.generateSequenceRule d pick).property]
          | RuleType.conditional => [])
      ++ ["Try to continue the pattern you see", "There might be more than one correct answer"]
    ∧ (VisualSequencePattern.generate d pick).hints.length =
        (if (VisualSequencePattern.generateSequenceRule d pick).type = RuleType.conditional then 3 else 4) := by
  have hg : (VisualSequencePattern.generate d pick).hints
      = VisualSequencePattern.generateHints (VisualSequencePattern.generateSequenceRule d pick) := rfl
  rcases hr : VisualSequencePattern.generateSequenceRule d pick with ⟨t, prop, pat, inc, cond⟩
  rw [hg, hr]
  cases t <;> simp [VisualSequencePattern.generateHints]

/-- C8 (amended): the visual-sequence override of
`detectInteractionPattern` returns `systematic` exactly when the history is
non-empty, none of its last three attempts is tagged frustrated, and every
one of its last three attempts took more than the literal 2000 with at
most one hint — so `systematic` is a reachable output, contrary to the
original claim (`c8_counterexample`). -/
theorem c8_amended_systematic_iff (h : List PatternAttempt) :
    VisualSequencePattern.detectInteractionPattern h = InteractionPattern.systematic ↔
      (h ≠ []
       ∧ (h.drop (h.length - 3)).any
           (fun a => decide (a.interactionPattern = InteractionPattern.frustrated)) = false
       ∧ (h.drop (h.length - 3)).all
           (fun a => decide (2000 < a.timeSpent) && decide (a.hintsUsed ≤ 1)) = true) := by
  unfold VisualSequencePattern.detectInteractionPattern
  by_cases h0 : h.length = 0
  · have hnil : h = [] := List.length_eq_zero.mp h0
    subst hnil
    simp
  · have hne : h ≠ [] := by
      intro hnil
      exact h0 (by simp [hnil])
    rw [if_neg h0]
    dsimp only
    split_ifs with ha hb hc
    · simp [ha]
    · rw [Bool.not_eq_true] at ha
      simp [hne, ha, hb]
    · rw [Bool.not_eq_true] at hb
      simp [hb]
    · rw [Bool.not_eq_true] at hb
      simp [hb]

/-- When every solution scores confidence 0 against the attempt, the
best-match fold keeps a zero-confidence accumulator. -/
theorem bestMatch_foldl_zero (attempt : List VisualElement) (solutions : List PatternSolution)
    (acc : VisualSequencePattern.BestMatch) (hacc : acc.confidence = 0)
    (hall : ∀ sol ∈ solutions, VisualSequencePattern.calculateSolutionConfidence attempt sol.elements = 0) :
    (solutions.foldl (VisualSequencePattern.bestMatchStep attempt) acc).confidence = 0 := by
  induction solutions generalizing acc with
  | nil => simpa using hacc
  | cons s t ih =>
      rw [List.foldl_cons]
      have hs := hall s (by simp)
      have hstep : VisualSequencePattern.bestMatchStep attempt acc s = acc := by
        unfold VisualSequencePattern.bestMatchStep
        rw [if_neg (by rw [hs, hacc]; exact lt_irrefl 0)]
      rw [hstep]
      exact ih acc hacc (fun x hx => hall x (by simp [hx]))

/-- C10: whenever `validateSolution` scores a non-empty attempt against a
(cached, non-empty) solution set in which every solution's element count
differs from the attempt's, every per-solution confidence is 0 (length
mismatch), and the degenerate-match override then forces the returned
confidence to exactly 0.9 with `isValid = true`. -/
theorem c10_length_mismatch_degenerate (s : EngineState) (p : PatternConfig)
    (attempt : List VisualElement) (pick : ℕ)
    (hlast : s.lastGeneratedPattern = some p)
    (hne : p.validSolutions ≠ [])
    (hatt : attempt ≠ [])
    (hlen : ∀ sol ∈ p.validSolutions, sol.elements.length ≠ attempt.length) :
    (∀ sol ∈ p.validSolutions,
        VisualSequencePattern.calculateSolutionConfidence attempt sol.elements = 0)
    ∧ (VisualSequencePattern.validateSolutionStep s attempt pick).1.confidence = 9/10
    ∧ (VisualSequencePattern.validateSolutionStep s attempt pick).1.isValid = true := by
  have hzero : ∀ sol ∈ p.validSolutions,
      VisualSequencePattern.calculateSolutionConfidence attempt sol.elements = 0 := by
    intro sol hsol
    unfold VisualSequencePattern.calculateSolutionConfidence
    rw [if_pos (Ne.symm (hlen sol hsol))]
  have hres : (VisualSequencePattern.validateSolutionStep s attempt pick).1
      = VisualSequencePattern.scoreAttempt p.validSolutions attempt := by
    unfold VisualSequencePattern.validateSolutionStep
    rw [hlast]
    rw [if_neg (by simp [hne])]
  have hbest : (p.validSolutions.foldl (VisualSequencePattern.bestMatchStep attempt)
      ({ confidence := 0, elements := [] } : VisualSequencePattern.BestMatch)).confidence = 0 :=
    bestMatch_foldl_zero attempt p.validSolutions _ rfl hzero
  have hscore : VisualSequencePattern.scoreAttempt p.validSolutions attempt
      = { isValid := decide ((8:ℚ)/10 ≤ 9/10), confidence := 9/10,
          feedback := VisualSequencePattern.generateFeedback (9/10),
          suggestions := VisualSequencePattern.generateSuggestions } := by
    unfold VisualSequencePattern.scoreAttempt
    dsimp only
    rw [if_pos ⟨hbest, List.length_pos.mpr hatt⟩]
  refine ⟨hzero, ?_, ?_⟩
  · rw [hres, hscore]
  · rw [hres, hscore]
    show decide ((8:ℚ)/10 ≤ 9/10) = true
    rw [decide_eq_true_eq]
    norm_num

/-- Witness for C10: a cached two-element solution scored against a
one-element attempt. -/
theorem c10_witness :
    exStateCached.lastGeneratedPattern = some exTwoElementSolutionConfig
    ∧ exTwoElementSolutionConfig.validSolutions ≠ []
    ∧ ([VisualSequencePattern.defaultVisualElement] : List VisualElement) ≠ []
    ∧ (∀ sol ∈ exTwoElementSolutionConfig.validSolutions,
        sol.elements.length ≠ ([VisualSequencePattern.defaultVisualElement] : List VisualElement).length)
    ∧ ((∀ sol ∈ exTwoElementSolutionConfig.validSolutions,
          VisualSequencePattern.calculateSolutionConfidence
            [VisualSequencePattern.defaultVisualElement] sol.elements = 0)
        ∧ (VisualSequencePattern.validateSolutionStep exStateCached
            [VisualSequencePattern.defaultVisualElement] 0).1.confidence = 9/10
        ∧ (VisualSequencePattern.validateSolutionStep exStateCached
            [VisualSequencePattern.defaultVisualElement] 0).1.isValid = true) :=
  ⟨rfl, by with_unfolding_all decide, by with_unfolding_all decide, by with_unfolding_all decide,
   c10_length_mismatch_degenerate exStateCached exTwoElementSolutionConfig
     [VisualSequencePattern.defaultVisualElement] 0 rfl
     (by with_unfolding_all decide) (by with_unfolding_all decide) (by with_unfolding_all decide)⟩
